import Mathlib

/-
Verification of the clinical-visit chain of a veterinary-clinic backend.

The relational state (SQLAlchemy models in app/models/veterinaria.py) is
embedded as lists of records; each REST handler of the clinical chain
(app/api/v1/endpoints/{consultas,triaje,solicitudes,servicio_solicitado}.py)
is embedded as a pure function `DB → input → DB × Except ApiError output`:
the returned `DB` is the committed storage state (handlers that abort with
an HTTP error before any write return the input state unchanged, matching
the reference, which raises `HTTPException` before issuing any INSERT or
UPDATE on those paths).

`datetime.now()` is an abstract clock tick passed as a `Nat` argument.
SQL `DECIMAL` / Python `float` columns are embedded as `ℚ`; `Optional`
columns as `Option`; ids as `Nat`.  Inert personal columns of the party
tables (phone, email, password, …) are omitted: no handler of the clinical
chain reads or writes them.
-/

namespace Veterinaria

/-- Veterinario row (app/models/veterinaria.py, table `Veterinario`):
identity plus the columns the clinical chain reads (`estado`,
`disposicion`); `disposicion` ranges over "Libre" / "Ocupado". -/
structure Veterinario where
  id_veterinario : Nat
  id_especialidad : Nat
  nombre : String
  apellido_paterno : String
  dni : String
  estado : String
  disposicion : String
  deriving Repr, DecidableEq

/-- Mascota row (table `Mascota`). -/
structure Mascota where
  id_mascota : Nat
  id_cliente : Nat
  id_raza : Nat
  nombre : String
  sexo : String
  deriving Repr, DecidableEq

/-- Recepcionista row (table `Recepcionista`). -/
structure Recepcionista where
  id_recepcionista : Nat
  nombre : String
  dni : String
  estado : String
  deriving Repr, DecidableEq

/-- SolicitudAtencion row (table `Solicitud_atencion`); `estado` ranges over
"Pendiente", "En triaje", "En atencion", "Completada", "Cancelada". -/
structure SolicitudAtencion where
  id_solicitud : Nat
  id_mascota : Nat
  id_recepcionista : Nat
  fecha_hora_solicitud : Nat
  tipo_solicitud : String
  estado : String
  deriving Repr, DecidableEq

/-- Triaje row (table `Triaje`). -/
structure Triaje where
  id_triaje : Nat
  id_solicitud : Nat
  id_veterinario : Nat
  fecha_hora_triaje : Nat
  peso_mascota : ℚ
  latido_por_minuto : Int
  frecuencia_respiratoria_rpm : Int
  temperatura : ℚ
  talla : Option ℚ
  tiempo_capilar : Option String
  color_mucosas : Option String
  frecuencia_pulso : Int
  porce_deshidratacion : Option ℚ
  condicion_corporal : Option String
  clasificacion_urgencia : String
  deriving Repr, DecidableEq

/-- Consulta row (table `Consulta`).  `fecha_consulta` is `Option` because
the handler stores `consulta_dict.get('fecha_consulta', now)` where the key
is always present in the pydantic dict, so a client-omitted timestamp is
inserted as NULL (the `.get` default is inert). -/
structure Consulta where
  id_consulta : Nat
  id_triaje : Nat
  id_veterinario : Nat
  tipo_consulta : String
  fecha_consulta : Option Nat
  motivo_consulta : Option String
  sintomas_observados : Option String
  diagnostico_preliminar : Option String
  observaciones : Option String
  condicion_general : String
  es_seguimiento : Bool
  deriving Repr, DecidableEq

/-- Diagnostico row (table `Diagnostico`). -/
structure Diagnostico where
  id_diagnostico : Nat
  id_consulta : Nat
  id_patologia : Nat
  tipo_diagnostico : String
  fecha_diagnostico : Option Nat
  estado_patologia : String
  diagnostico : String
  deriving Repr, DecidableEq

/-- Tratamiento row (table `Tratamiento`). -/
structure Tratamiento where
  id_tratamiento : Nat
  id_consulta : Nat
  id_patologia : Nat
  fecha_inicio : Nat
  eficacia_tratamiento : Option String
  tipo_tratamiento : String
  deriving Repr, DecidableEq

/-- Patologia row (table `Patología`). -/
structure Patologia where
  id_patologia : Nat
  nombre_patologia : String
  especie_afecta : String
  gravedad : String
  es_cronica : Option Bool
  es_contagiosa : Option Bool
  deriving Repr, DecidableEq

/-- HistorialClinico row (table `Historial_clinico`): the append-only
clinical log of a pet. -/
structure HistorialClinico where
  id_historial : Nat
  id_mascota : Nat
  id_consulta : Option Nat
  id_diagnostico : Option Nat
  id_tratamiento : Option Nat
  id_veterinario : Option Nat
  fecha_evento : Nat
  tipo_evento : String
  edad_meses : Option Int
  descripcion_evento : String
  peso_momento : Option ℚ
  observaciones : Option String
  deriving Repr, DecidableEq

/-- Servicio row (table `Servicio`). -/
structure Servicio where
  id_servicio : Nat
  id_tipo_servicio : Nat
  nombre_servicio : String
  precio : ℚ
  activo : Bool
  deriving Repr, DecidableEq

/-- ServicioSolicitado row (table `Servicio_Solicitado`); `estado_examen`
ranges over "Solicitado", "Citado", "En proceso", "Completado". -/
structure ServicioSolicitado where
  id_servicio_solicitado : Nat
  id_consulta : Nat
  id_servicio : Nat
  fecha_solicitado : Nat
  prioridad : String
  estado_examen : String
  comentario_opcional : Option String
  deriving Repr, DecidableEq

/-- Cita row (table `Cita`); `estado_cita` ranges over "Programada",
"Cancelada", "Atendida". -/
structure Cita where
  id_cita : Nat
  id_mascota : Nat
  id_servicio_solicitado : Option Nat
  fecha_hora_programada : Nat
  estado_cita : String
  requiere_ayuno : Option Bool
  observaciones : Option String
  deriving Repr, DecidableEq

/-- ResultadoServicio row (table `Resultado_servicio`). -/
structure ResultadoServicio where
  id_resultado : Nat
  id_cita : Nat
  id_veterinario : Nat
  resultado : String
  interpretacion : Option String
  archivo_adjunto : Option String
  fecha_realizacion : Option Nat
  deriving Repr, DecidableEq

/-- The relational state: one list per table, plus the autoincrement
counter of each table the embedded handlers insert into. -/
structure DB where
  veterinarios : List Veterinario
  mascotas : List Mascota
  recepcionistas : List Recepcionista
  solicitudes : List SolicitudAtencion
  triajes : List Triaje
  consultas : List Consulta
  diagnosticos : List Diagnostico
  tratamientos : List Tratamiento
  historial : List HistorialClinico
  servicios : List Servicio
  servicios_solicitados : List ServicioSolicitado
  citas : List Cita
  resultados_servicio : List ResultadoServicio
  patologias : List Patologia
  next_id_solicitud : Nat
  next_id_triaje : Nat
  next_id_consulta : Nat
  next_id_diagnostico : Nat
  next_id_tratamiento : Nat
  next_id_historial : Nat
  next_id_servicio_solicitado : Nat
  next_id_cita : Nat
  deriving Repr, DecidableEq

/-- HTTP error responses raised by the handlers: FastAPI request validation
(422, raised by the pydantic validators before the handler body runs),
`HTTPException(400)` and `HTTPException(404)`.  The reference surfaces
uniqueness conflicts (spec §4.7 "Conflict") as 400 with a duplicate-row
detail string. -/
inductive ApiError where
  | validation (detail : String)
  | badRequest (detail : String)
  | notFound (detail : String)
  deriving Repr, DecidableEq

/-- Modelled from the spec: `CRUDBase.get` (app/crud/base_crud.py is not
among the sources; every handler uses it as `crud.get(db, id)`): the
primary-key lookup, `db.query(Model).filter(pk == id).first()`. -/
def get_veterinario (db : DB) (id : Nat) : Option Veterinario :=
  db.veterinarios.find? (fun v => v.id_veterinario == id)

/-- Primary-key lookup on `Solicitud_atencion` (see `get_veterinario`). -/
def get_solicitud (db : DB) (id : Nat) : Option SolicitudAtencion :=
  db.solicitudes.find? (fun s => s.id_solicitud == id)

/-- Primary-key lookup on `Triaje` (see `get_veterinario`). -/
def get_triaje (db : DB) (id : Nat) : Option Triaje :=
  db.triajes.find? (fun t => t.id_triaje == id)

/-- Primary-key lookup on `Consulta` (see `get_veterinario`). -/
def get_consulta (db : DB) (id : Nat) : Option Consulta :=
  db.consultas.find? (fun c => c.id_consulta == id)

/-- Primary-key lookup on `Mascota` (app/crud/mascota_crud.py `get`). -/
def get_mascota (db : DB) (id : Nat) : Option Mascota :=
  db.mascotas.find? (fun m => m.id_mascota == id)

/-- Primary-key lookup on `Recepcionista` (see `get_veterinario`). -/
def get_recepcionista (db : DB) (id : Nat) : Option Recepcionista :=
  db.recepcionistas.find? (fun r => r.id_recepcionista == id)

/-- CRUDConsulta.get_by_triaje (app/crud/consulta_crud.py):
`db.query(Consulta).filter(Consulta.id_triaje == triaje_id).first()`. -/
def get_by_triaje (db : DB) (triaje_id : Nat) : Option Consulta :=
  db.consultas.find? (fun c => c.id_triaje == triaje_id)

/-- CRUDTriaje.exists_for_solicitud (app/crud/triaje_crud.py):
`db.query(Triaje).filter(Triaje.id_solicitud == id).first() is not None`. -/
def exists_for_solicitud (db : DB) (id_solicitud : Nat) : Bool :=
  (db.triajes.find? (fun t => t.id_solicitud == id_solicitud)).isSome

/-- Modelled from the spec: `CRUDVeterinario.cambiar_disposicion`
(app/crud/veterinario_crud.py is not among the sources; spec §3: the
disposition flag is "mutated as a side effect of Consultation-create
(→Busy) and Consultation-finalize (→Free)"): fetch the veterinarian by id
and assign the new `disposicion`; a missing id changes nothing. -/
def cambiar_disposicion (db : DB) (veterinario_id : Nat) (nueva : String) : DB :=
  { db with veterinarios := db.veterinarios.map (fun v =>
      if v.id_veterinario == veterinario_id then { v with disposicion := nueva } else v) }

/-- CRUDSolicitudAtencion.cambiar_estado (app/crud/consulta_crud.py):
fetch the request by id and assign the new `estado`; a missing id changes
nothing. -/
def cambiar_estado (db : DB) (solicitud_id : Nat) (nuevo_estado : String) : DB :=
  { db with solicitudes := db.solicitudes.map (fun s =>
      if s.id_solicitud == solicitud_id then { s with estado := nuevo_estado } else s) }

/-- CRUDHistorialClinico.add_evento_consulta (app/crud/historial_crud.py):
builds a "Consulta médica" event and inserts it through `add_evento`,
which commits the new `Historial_clinico` row. -/
def add_evento_consulta (db : DB) (mascota_id consulta_id veterinario_id : Nat)
    (descripcion : String) (peso_actual : Option ℚ) (now : Nat) : DB :=
  { db with
    historial := db.historial ++ [{
      id_historial := db.next_id_historial
      id_mascota := mascota_id
      id_consulta := some consulta_id
      id_diagnostico := none
      id_tratamiento := none
      id_veterinario := some veterinario_id
      fecha_evento := now
      tipo_evento := "Consulta médica"
      edad_meses := none
      descripcion_evento := descripcion
      peso_momento := peso_actual
      observaciones := none }]
    next_id_historial := db.next_id_historial + 1 }

/-- ConsultaCreate request body (app/schemas/consulta_schema.py). -/
structure ConsultaCreate where
  id_triaje : Nat
  id_veterinario : Nat
  tipo_consulta : String
  motivo_consulta : Option String
  sintomas_observados : Option String
  diagnostico_preliminar : Option String
  observaciones : Option String
  condicion_general : String
  es_seguimiento : Bool
  fecha_consulta : Option Nat
  deriving Repr, DecidableEq

/-- POST /consultas (create_consulta, app/api/v1/endpoints/consultas.py):
verify the triage exists (400), the veterinarian exists (400) and that no
consultation exists yet for this triage (400 duplicate); then insert the
Consulta row, flip the veterinarian's `disposicion` to "Ocupado", and — if
the triage's parent request resolves — set its `estado` to "En atencion"
and append a clinical-history event for the request's pet (the weight is
copied from the triage, `None` when falsy, i.e. zero). -/
def create_consulta (db : DB) (d : ConsultaCreate) (now : Nat) :
    DB × Except ApiError Consulta :=
  match get_triaje db d.id_triaje with
  | none => (db, .error (.badRequest "Triaje no encontrado"))
  | some triaje_obj =>
    match get_veterinario db d.id_veterinario with
    | none => (db, .error (.badRequest "Veterinario no encontrado"))
    | some _ =>
      match get_by_triaje db d.id_triaje with
      | some _ => (db, .error (.badRequest "Ya existe una consulta para este triaje"))
      | none =>
        let nueva : Consulta := {
          id_consulta := db.next_id_consulta
          id_triaje := d.id_triaje
          id_veterinario := d.id_veterinario
          tipo_consulta := d.tipo_consulta
          fecha_consulta := d.fecha_consulta
          motivo_consulta := d.motivo_consulta
          sintomas_observados := d.sintomas_observados
          diagnostico_preliminar := d.diagnostico_preliminar
          observaciones := d.observaciones
          condicion_general := d.condicion_general
          es_seguimiento := d.es_seguimiento }
        let db1 := { db with
          consultas := db.consultas ++ [nueva]
          next_id_consulta := db.next_id_consulta + 1 }
        let db2 := cambiar_disposicion db1 d.id_veterinario "Ocupado"
        match get_solicitud db2 triaje_obj.id_solicitud with
        | none => (db2, .ok nueva)
        | some solicitud_obj =>
          let db3 := cambiar_estado db2 triaje_obj.id_solicitud "En atencion"
          let db4 := add_evento_consulta db3 solicitud_obj.id_mascota
            nueva.id_consulta d.id_veterinario
            ("Consulta: " ++ d.tipo_consulta ++ ". Motivo: " ++
              (d.motivo_consulta.getD "No especificado"))
            (if triaje_obj.peso_mascota == 0 then none else some triaje_obj.peso_mascota)
            now
          (db4, .ok nueva)

/-- PATCH /consultas/{id}/finalizar (finalizar_consulta,
app/api/v1/endpoints/consultas.py): verify the consultation exists (404);
set the veterinarian's `disposicion` to "Libre"; then, if the
consultation's triage resolves, set the parent request's `estado` to
"Completada".  No guard prevents finalizing twice. -/
def finalizar_consulta (db : DB) (consulta_id : Nat) : DB × Except ApiError Unit :=
  match get_consulta db consulta_id with
  | none => (db, .error (.notFound "Consulta no encontrada"))
  | some consulta_obj =>
    let db1 := cambiar_disposicion db consulta_obj.id_veterinario "Libre"
    match get_triaje db1 consulta_obj.id_triaje with
    | none => (db1, .ok ())
    | some triaje_obj =>
      (cambiar_estado db1 triaje_obj.id_solicitud "Completada", .ok ())

/-- TriajeCreate request body (app/schemas/triaje_schema.py): parent
request id, performing veterinarian id, vitals and classifications. -/
structure TriajeCreate where
  id_solicitud : Nat
  id_veterinario : Nat
  peso_mascota : ℚ
  latido_por_minuto : Int
  frecuencia_respiratoria_rpm : Int
  temperatura : ℚ
  talla : Option ℚ
  tiempo_capilar : Option String
  color_mucosas : Option String
  frecuencia_pulso : Int
  porce_deshidratacion : Option ℚ
  condicion_corporal : Option String
  clasificacion_urgencia : String
  deriving Repr, DecidableEq

/-- Allowed body-condition values (triaje_schema CONDICION_CORPORAL_CHOICES). -/
def condicion_corporal_choices : List String :=
  ["Muy delgado", "Delgado", "Ideal", "Sobrepeso", "Obeso"]

/-- Allowed urgency values (triaje_schema CLASIFICACION_URGENCIA_CHOICES). -/
def clasificacion_urgencia_choices : List String :=
  ["No urgente", "Poco urgente", "Urgente", "Muy urgente", "Critico"]

/-- Conjunction of the pydantic @validator checks of TriajeCreate
(app/schemas/triaje_schema.py): each validator raises (rejecting the
request with a 422 validation error) exactly when its condition fails.
`condicion_corporal` uses `if v and v not in …`, so `None` and the empty
string both pass that validator. -/
def TriajeCreate.valid (d : TriajeCreate) : Bool :=
  decide (0 < d.peso_mascota ∧ d.peso_mascota ≤ 100) &&
  decide (40 ≤ d.latido_por_minuto ∧ d.latido_por_minuto ≤ 300) &&
  decide (10 ≤ d.frecuencia_respiratoria_rpm ∧ d.frecuencia_respiratoria_rpm ≤ 150) &&
  decide (35 ≤ d.temperatura ∧ d.temperatura ≤ 42) &&
  (match d.talla with
   | none => true
   | some t => decide (0 < t ∧ t ≤ 200)) &&
  decide (30 ≤ d.frecuencia_pulso ∧ d.frecuencia_pulso ≤ 250) &&
  (match d.porce_deshidratacion with
   | none => true
   | some p => decide (0 ≤ p ∧ p ≤ 100)) &&
  (match d.condicion_corporal with
   | none => true
   | some c => c == "" || condicion_corporal_choices.contains c) &&
  clasificacion_urgencia_choices.contains d.clasificacion_urgencia

/-- POST /triaje (create_triaje, app/api/v1/endpoints/triaje.py): FastAPI
first runs the TriajeCreate validators (422 when they fail); the handler
then rejects a duplicate triage for the request (400, checked FIRST), a
missing request (400) and a missing veterinarian (400), and otherwise
inserts the Triaje row stamped with the current time. -/
def create_triaje (db : DB) (d : TriajeCreate) (now : Nat) :
    DB × Except ApiError Triaje :=
  if ¬ d.valid then (db, .error (.validation "triaje invalido"))
  else if exists_for_solicitud db d.id_solicitud then
    (db, .error (.badRequest "Ya existe un triaje para esta solicitud"))
  else
    match get_solicitud db d.id_solicitud with
    | none => (db, .error (.badRequest "Solicitud no encontrada"))
    | some _ =>
      match get_veterinario db d.id_veterinario with
      | none => (db, .error (.badRequest "Veterinario no encontrado"))
      | some _ =>
        let nuevo : Triaje := {
          id_triaje := db.next_id_triaje
          id_solicitud := d.id_solicitud
          id_veterinario := d.id_veterinario
          fecha_hora_triaje := now
          peso_mascota := d.peso_mascota
          latido_por_minuto := d.latido_por_minuto
          frecuencia_respiratoria_rpm := d.frecuencia_respiratoria_rpm
          temperatura := d.temperatura
          talla := d.talla
          tiempo_capilar := d.tiempo_capilar
          color_mucosas := d.color_mucosas
          frecuencia_pulso := d.frecuencia_pulso
          porce_deshidratacion := d.porce_deshidratacion
          condicion_corporal := d.condicion_corporal
          clasificacion_urgencia := d.clasificacion_urgencia }
        ({ db with
            triajes := db.triajes ++ [nuevo]
            next_id_triaje := db.next_id_triaje + 1 }, .ok nuevo)

/-- SolicitudCreate request body (app/schemas/solicitud_schema.py):
`estado` is `Optional[str] = "Pendiente"`, so an omitted field arrives as
`some "Pendiente"` and an explicit JSON null as `none`. -/
structure SolicitudCreate where
  id_mascota : Nat
  id_recepcionista : Nat
  tipo_solicitud : String
  estado : Option String
  deriving Repr, DecidableEq

/-- Allowed request kinds (solicitud_schema TIPO_SOLICITUD_CHOICES). -/
def tipo_solicitud_choices : List String :=
  ["Consulta urgente", "Consulta normal", "Servicio programado"]

/-- Allowed request states (solicitud_schema ESTADO_SOLICITUD_CHOICES). -/
def estado_solicitud_choices : List String :=
  ["Pendiente", "En triaje", "En atencion", "Completada", "Cancelada"]

/-- Conjunction of the pydantic @validator checks of SolicitudCreate:
`tipo_solicitud` must be a valid kind; `estado` uses `if v and v not in …`,
so `None` passes and any of the five states is accepted. -/
def SolicitudCreate.valid (d : SolicitudCreate) : Bool :=
  tipo_solicitud_choices.contains d.tipo_solicitud &&
  (match d.estado with
   | none => true
   | some e => e == "" || estado_solicitud_choices.contains e)

/-- POST /solicitudes (create_solicitud, app/api/v1/endpoints/solicitudes.py):
after the schema validators (422), verify the pet (400) and the
receptionist (400) exist, then insert the Solicitud_atencion row stamped
with the current time.  The stored `estado` is the value carried by the
request body; a `None` falls back to the column default 'Pendiente'
(app/models/veterinaria.py, `default='Pendiente'`). -/
def create_solicitud (db : DB) (d : SolicitudCreate) (now : Nat) :
    DB × Except ApiError SolicitudAtencion :=
  if ¬ d.valid then (db, .error (.validation "solicitud invalida"))
  else
    match get_mascota db d.id_mascota with
    | none => (db, .error (.badRequest "Mascota no encontrada"))
    | some _ =>
      match get_recepcionista db d.id_recepcionista with
      | none => (db, .error (.badRequest "Recepcionista no encontrada"))
      | some _ =>
        let nueva : SolicitudAtencion := {
          id_solicitud := db.next_id_solicitud
          id_mascota := d.id_mascota
          id_recepcionista := d.id_recepcionista
          fecha_hora_solicitud := now
          tipo_solicitud := d.tipo_solicitud
          estado := d.estado.getD "Pendiente" }
        ({ db with
            solicitudes := db.solicitudes ++ [nueva]
            next_id_solicitud := db.next_id_solicitud + 1 }, .ok nueva)

/-- ServicioCitaCreate request body (app/schemas/consulta_schema.py). -/
structure ServicioCitaCreate where
  id_veterinario : Nat
  id_servicio : Nat
  prioridad : String
  comentario_opcional : Option String
  fecha_hora_programada : Nat
  requiere_ayuno : Bool
  observaciones : Option String
  deriving Repr, DecidableEq

/-- The raw three-hop join of create_servicio_cita
(app/api/v1/endpoints/servicio_solicitado.py): `SELECT sa.id_mascota FROM
Consulta c JOIN Triaje t ON c.id_triaje = t.id_triaje JOIN
Solicitud_atencion sa ON t.id_solicitud = sa.id_solicitud WHERE
c.id_consulta = :consulta_id`, `fetchone()`. -/
def resolve_mascota_of_consulta (db : DB) (consulta_id : Nat) : Option Nat :=
  match get_consulta db consulta_id with
  | none => none
  | some c =>
    match get_triaje db c.id_triaje with
    | none => none
    | some t => (get_solicitud db t.id_solicitud).map (fun sa => sa.id_mascota)

/-- POST /consultas/{consulta_id}/servicio-cita (create_servicio_cita,
app/api/v1/endpoints/servicio_solicitado.py): verify the consultation
exists (404) and the service exists AND is active (404); resolve the pet
through the three-hop join (404 when it fails); then insert the
Servicio_Solicitado row (estado_examen "Solicitado") and the Cita row
(estado_cita "Programada") referencing it, in ONE commit.  All error
paths precede both inserts, so a failure persists neither row. -/
def create_servicio_cita (db : DB) (consulta_id : Nat) (d : ServicioCitaCreate)
    (now : Nat) : DB × Except ApiError (Nat × Nat) :=
  match get_consulta db consulta_id with
  | none => (db, .error (.notFound "Consulta no encontrada"))
  | some _ =>
    match db.servicios.find? (fun s => s.id_servicio == d.id_servicio && s.activo) with
    | none => (db, .error (.notFound "Servicio no encontrado o inactivo"))
    | some _ =>
      match resolve_mascota_of_consulta db consulta_id with
      | none => (db, .error (.notFound "No se pudo obtener la mascota asociada a la consulta"))
      | some id_mascota =>
        let nuevo_ss : ServicioSolicitado := {
          id_servicio_solicitado := db.next_id_servicio_solicitado
          id_consulta := consulta_id
          id_servicio := d.id_servicio
          fecha_solicitado := now
          prioridad := d.prioridad
          estado_examen := "Solicitado"
          comentario_opcional := d.comentario_opcional }
        let nueva_cita : Cita := {
          id_cita := db.next_id_cita
          id_mascota := id_mascota
          id_servicio_solicitado := some nuevo_ss.id_servicio_solicitado
          fecha_hora_programada := d.fecha_hora_programada
          estado_cita := "Programada"
          requiere_ayuno := some d.requiere_ayuno
          observaciones := d.observaciones }
        ({ db with
            servicios_solicitados := db.servicios_solicitados ++ [nuevo_ss]
            citas := db.citas ++ [nueva_cita]
            next_id_servicio_solicitado := db.next_id_servicio_solicitado + 1
            next_id_cita := db.next_id_cita + 1 }, .ok (nuevo_ss.id_servicio_solicitado, nueva_cita.id_cita))

/-- Primary-key lookup on `Patología` (see `get_veterinario`). -/
def get_patologia (db : DB) (id : Nat) : Option Patologia :=
  db.patologias.find? (fun p => p.id_patologia == id)

/-- Primary-key lookup on `Servicio_Solicitado` (see `get_veterinario`). -/
def get_servicio_solicitado (db : DB) (id : Nat) : Option ServicioSolicitado :=
  db.servicios_solicitados.find? (fun s => s.id_servicio_solicitado == id)

/-- CRUDHistorialClinico.add_evento_diagnostico (app/crud/historial_crud.py):
appends a "Diagnóstico" event. -/
def add_evento_diagnostico (db : DB) (mascota_id diagnostico_id veterinario_id : Nat)
    (descripcion : String) (now : Nat) : DB :=
  { db with
    historial := db.historial ++ [{
      id_historial := db.next_id_historial
      id_mascota := mascota_id
      id_consulta := none
      id_diagnostico := some diagnostico_id
      id_tratamiento := none
      id_veterinario := some veterinario_id
      fecha_evento := now
      tipo_evento := "Diagnóstico"
      edad_meses := none
      descripcion_evento := descripcion
      peso_momento := none
      observaciones := none }]
    next_id_historial := db.next_id_historial + 1 }

/-- CRUDHistorialClinico.add_evento_tratamiento (app/crud/historial_crud.py):
appends a "Tratamiento" event. -/
def add_evento_tratamiento (db : DB) (mascota_id tratamiento_id veterinario_id : Nat)
    (descripcion : String) (now : Nat) : DB :=
  { db with
    historial := db.historial ++ [{
      id_historial := db.next_id_historial
      id_mascota := mascota_id
      id_consulta := none
      id_diagnostico := none
      id_tratamiento := some tratamiento_id
      id_veterinario := some veterinario_id
      fecha_evento := now
      tipo_evento := "Tratamiento"
      edad_meses := none
      descripcion_evento := descripcion
      peso_momento := none
      observaciones := none }]
    next_id_historial := db.next_id_historial + 1 }

/-- DiagnosticoCreate request body (app/schemas/consulta_schema.py); the
handler overwrites `id_consulta` with the path parameter. -/
structure DiagnosticoCreate where
  id_consulta : Nat
  id_patologia : Nat
  diagnostico : String
  tipo_diagnostico : String
  estado_patologia : String
  fecha_diagnostico : Option Nat
  deriving Repr, DecidableEq

/-- POST /consultas/{id}/diagnosticos (create_diagnostico,
app/api/v1/endpoints/consultas.py): consultation must exist (404),
pathology must exist (400); insert the Diagnostico row; then, when the
triage and its parent request both resolve, append a history event for
the request's pet. -/
def create_diagnostico (db : DB) (consulta_id : Nat) (d : DiagnosticoCreate)
    (now : Nat) : DB × Except ApiError Diagnostico :=
  match get_consulta db consulta_id with
  | none => (db, .error (.notFound "Consulta no encontrada"))
  | some consulta_obj =>
    match get_patologia db d.id_patologia with
    | none => (db, .error (.badRequest "Patología no encontrada"))
    | some _ =>
      let nuevo : Diagnostico := {
        id_diagnostico := db.next_id_diagnostico
        id_consulta := consulta_id
        id_patologia := d.id_patologia
        tipo_diagnostico := d.tipo_diagnostico
        fecha_diagnostico := d.fecha_diagnostico
        estado_patologia := d.estado_patologia
        diagnostico := d.diagnostico }
      let db1 := { db with
        diagnosticos := db.diagnosticos ++ [nuevo]
        next_id_diagnostico := db.next_id_diagnostico + 1 }
      match get_triaje db1 consulta_obj.id_triaje with
      | none => (db1, .ok nuevo)
      | some triaje_obj =>
        match get_solicitud db1 triaje_obj.id_solicitud with
        | none => (db1, .ok nuevo)
        | some solicitud_obj =>
          (add_evento_diagnostico db1 solicitud_obj.id_mascota nuevo.id_diagnostico
            consulta_obj.id_veterinario
            ("Diagnóstico " ++ d.tipo_diagnostico ++ ": " ++ d.diagnostico) now,
           .ok nuevo)

/-- TratamientoCreate request body (app/schemas/consulta_schema.py); the
handler overwrites `id_consulta` with the path parameter. -/
structure TratamientoCreate where
  id_consulta : Nat
  id_patologia : Nat
  tipo_tratamiento : String
  fecha_inicio : Nat
  eficacia_tratamiento : Option String
  deriving Repr, DecidableEq

/-- POST /consultas/{id}/tratamientos (create_tratamiento,
app/api/v1/endpoints/consultas.py): consultation must exist (404); insert
the Tratamiento row; then, when the triage and its parent request both
resolve, append a history event for the request's pet. -/
def create_tratamiento (db : DB) (consulta_id : Nat) (d : TratamientoCreate)
    (now : Nat) : DB × Except ApiError Tratamiento :=
  match get_consulta db consulta_id with
  | none => (db, .error (.notFound "Consulta no encontrada"))
  | some consulta_obj =>
    let nuevo : Tratamiento := {
      id_tratamiento := db.next_id_tratamiento
      id_consulta := consulta_id
      id_patologia := d.id_patologia
      fecha_inicio := d.fecha_inicio
      eficacia_tratamiento := d.eficacia_tratamiento
      tipo_tratamiento := d.tipo_tratamiento }
    let db1 := { db with
      tratamientos := db.tratamientos ++ [nuevo]
      next_id_tratamiento := db.next_id_tratamiento + 1 }
    match get_triaje db1 consulta_obj.id_triaje with
    | none => (db1, .ok nuevo)
    | some triaje_obj =>
      match get_solicitud db1 triaje_obj.id_solicitud with
      | none => (db1, .ok nuevo)
      | some solicitud_obj =>
        (add_evento_tratamiento db1 solicitud_obj.id_mascota nuevo.id_tratamiento
          consulta_obj.id_veterinario
          ("Tratamiento " ++ d.tipo_tratamiento ++ " iniciado para patología") now,
         .ok nuevo)

/-- CitaCreate request body (app/schemas/consulta_schema.py). -/
structure CitaCreate where
  id_mascota : Nat
  fecha_hora_programada : Nat
  id_servicio_solicitado : Option Nat
  requiere_ayuno : Option Bool
  observaciones : Option String
  deriving Repr, DecidableEq

/-- POST /consultas/cita (create_cita, app/api/v1/endpoints/consultas.py):
pet must exist (400); when a requested-service id is supplied it must
exist (400); insert the Cita row with estado_cita "Programada". -/
def create_cita (db : DB) (d : CitaCreate) : DB × Except ApiError Cita :=
  match get_mascota db d.id_mascota with
  | none => (db, .error (.badRequest "Mascota no encontrada"))
  | some _ =>
    if d.id_servicio_solicitado.isSome ∧
        (get_servicio_solicitado db (d.id_servicio_solicitado.getD 0)).isNone then
      (db, .error (.badRequest "Servicio solicitado no encontrado"))
    else
      let nueva : Cita := {
        id_cita := db.next_id_cita
        id_mascota := d.id_mascota
        id_servicio_solicitado := d.id_servicio_solicitado
        fecha_hora_programada := d.fecha_hora_programada
        estado_cita := "Programada"
        requiere_ayuno := d.requiere_ayuno
        observaciones := d.observaciones }
      ({ db with citas := db.citas ++ [nueva], next_id_cita := db.next_id_cita + 1 },
       .ok nueva)

/-- DELETE /consultas/cita/{id} (delete_cita): 404 when missing, else
remove the row. -/
def delete_cita (db : DB) (id : Nat) : DB × Except ApiError Unit :=
  match db.citas.find? (fun c => c.id_cita == id) with
  | none => (db, .error (.notFound "Cita no encontrada"))
  | some _ => ({ db with citas := db.citas.filter (fun c => c.id_cita != id) }, .ok ())

/-- DELETE /triaje/{id} (delete_triaje): 404 when missing, else remove. -/
def delete_triaje (db : DB) (id : Nat) : DB × Except ApiError Unit :=
  match get_triaje db id with
  | none => (db, .error (.notFound "Triaje no encontrado"))
  | some _ => ({ db with triajes := db.triajes.filter (fun t => t.id_triaje != id) }, .ok ())

/-- DELETE /solicitudes/{id} (delete_solicitud): 404 when missing, else
remove. -/
def delete_solicitud (db : DB) (id : Nat) : DB × Except ApiError Unit :=
  match get_solicitud db id with
  | none => (db, .error (.notFound "Solicitud no encontrada"))
  | some _ =>
    ({ db with solicitudes := db.solicitudes.filter (fun s => s.id_solicitud != id) }, .ok ())

/-- PUT /consultas/{id} (update_consulta): 404 when missing, else apply to
the fetched row the field assignments carried by the ConsultaUpdate body,
abstracted here as a row-local function `f`. -/
def update_consulta (db : DB) (id : Nat) (f : Consulta → Consulta) :
    DB × Except ApiError Unit :=
  match get_consulta db id with
  | none => (db, .error (.notFound "Consulta no encontrada"))
  | some _ =>
    ({ db with consultas := db.consultas.map (fun c =>
        if c.id_consulta == id then f c else c) }, .ok ())

/-- PUT /triaje/{id} (update_triaje): 404 when missing, else apply the
TriajeUpdate field assignments, abstracted as `f`. -/
def update_triaje (db : DB) (id : Nat) (f : Triaje → Triaje) :
    DB × Except ApiError Unit :=
  match get_triaje db id with
  | none => (db, .error (.notFound "Triaje no encontrado"))
  | some _ =>
    ({ db with triajes := db.triajes.map (fun t =>
        if t.id_triaje == id then f t else t) }, .ok ())

/-- PUT /solicitudes/{id} (update_solicitud): 404 when missing, else apply
the SolicitudUpdate field assignments, abstracted as `f`. -/
def update_solicitud (db : DB) (id : Nat) (f : SolicitudAtencion → SolicitudAtencion) :
    DB × Except ApiError Unit :=
  match get_solicitud db id with
  | none => (db, .error (.notFound "Solicitud no encontrada"))
  | some _ =>
    ({ db with solicitudes := db.solicitudes.map (fun s =>
        if s.id_solicitud == id then f s else s) }, .ok ())

/-- PATCH /solicitudes/{id}/estado (cambiar_estado_solicitud): the
CambioEstado validator requires a valid state (422); a missing request is
404; otherwise assign the new `estado`. -/
def cambiar_estado_solicitud (db : DB) (id : Nat) (nuevo_estado : String) :
    DB × Except ApiError Unit :=
  if ¬ estado_solicitud_choices.contains nuevo_estado then
    (db, .error (.validation "estado invalido"))
  else
    match get_solicitud db id with
    | none => (db, .error (.notFound "Solicitud no encontrada"))
    | some _ => (cambiar_estado db id nuevo_estado, .ok ())

/-- PUT /servicios-solicitados/{id} (update_servicio_solicitado): 404 when
missing, else apply the ServicioSolicitadoUpdate field assignments,
abstracted as `f`. -/
def update_servicio_solicitado (db : DB) (id : Nat)
    (f : ServicioSolicitado → ServicioSolicitado) : DB × Except ApiError Unit :=
  match get_servicio_solicitado db id with
  | none => (db, .error (.notFound "Servicio solicitado no encontrado"))
  | some _ =>
    ({ db with servicios_solicitados := db.servicios_solicitados.map (fun s =>
        if s.id_servicio_solicitado == id then f s else s) }, .ok ())

/-- ResultadoServicioCreate request body (app/schemas/consulta_schema.py). -/
structure ResultadoServicioCreate where
  id_cita : Nat
  id_veterinario : Nat
  resultado : String
  interpretacion : Option String
  archivo_adjunto : Option String
  fecha_realizacion : Option Nat
  deriving Repr, DecidableEq

/-- PUT /consultas/resultado_servicio/{cita_id} (update_resultado_servicio):
find the result row by its cita (404 when missing) and overwrite its
`resultado`, `interpretacion`, `archivo_adjunto` and `fecha_realizacion`
from the body. -/
def update_resultado_servicio (db : DB) (cita_id : Nat) (d : ResultadoServicioCreate) :
    DB × Except ApiError Unit :=
  match db.resultados_servicio.find? (fun r => r.id_cita == cita_id) with
  | none => (db, .error (.notFound "Resultado del servicio no encontrado para esta cita"))
  | some _ =>
    ({ db with resultados_servicio := db.resultados_servicio.map (fun r =>
        if r.id_cita == cita_id then
          { r with
            resultado := d.resultado
            interpretacion := d.interpretacion
            archivo_adjunto := d.archivo_adjunto
            fecha_realizacion := d.fecha_realizacion }
        else r) }, .ok ())

/-- PUT /consultas/diagnostico/{id}/completo (update_diagnostico_completo):
404 when the diagnosis is missing; else apply the body's field
assignments (abstracted as row-local functions) to the diagnosis, to its
pathology when it resolves, and to the first treatment sharing the
diagnosis's consultation and pathology when it resolves. -/
def update_diagnostico_completo (db : DB) (id : Nat)
    (fd : Diagnostico → Diagnostico) (fp : Patologia → Patologia)
    (ft : Tratamiento → Tratamiento) : DB × Except ApiError Unit :=
  match db.diagnosticos.find? (fun g => g.id_diagnostico == id) with
  | none => (db, .error (.notFound "Diagnóstico no encontrado"))
  | some diag_obj =>
    let db1 := { db with diagnosticos := db.diagnosticos.map (fun g =>
        if g.id_diagnostico == id then fd g else g) }
    let db2 :=
      match get_patologia db1 diag_obj.id_patologia with
      | none => db1
      | some _ => { db1 with patologias := db1.patologias.map (fun (p : Patologia) =>
          if p.id_patologia == diag_obj.id_patologia then fp p else p) }
    let db3 :=
      match db2.tratamientos.find? (fun (t : Tratamiento) =>
          t.id_consulta == diag_obj.id_consulta && t.id_patologia == diag_obj.id_patologia) with
      | none => db2
      | some trat_obj => { db2 with tratamientos := db2.tratamientos.map (fun (t : Tratamiento) =>
          if t.id_tratamiento == trat_obj.id_tratamiento then ft t else t) }
    (db3, .ok ())

/-- The mutating REST operations exposed by the API
(app/api/v1/endpoints/*.py).  Each constructor records the input of one
handler; the party-resource handlers (mascota.py, veterinarios.py,
recepcionistas.py) write only their own table, and their row-level field
assignments (and, for the two disposicion routes, the `id_usuario`-based
row selection) are abstracted as the selection predicate / update function
the handler applies to the fetched row — an over-approximation of the
reference's fixed field assignments. -/
inductive Op where
  | opCreateCita (d : CitaCreate)
  | opDeleteCita (id : Nat)
  | opCreateConsulta (d : ConsultaCreate) (now : Nat)
  | opUpdateConsulta (id : Nat) (f : Consulta → Consulta)
  | opCreateDiagnostico (consulta_id : Nat) (d : DiagnosticoCreate) (now : Nat)
  | opCreateTratamiento (consulta_id : Nat) (d : TratamientoCreate) (now : Nat)
  | opFinalizarConsulta (id : Nat)
  | opUpdateResultadoServicio (cita_id : Nat) (d : ResultadoServicioCreate)
  | opUpdateDiagnosticoCompleto (id : Nat) (fd : Diagnostico → Diagnostico)
      (fp : Patologia → Patologia) (ft : Tratamiento → Tratamiento)
  | opCreateTriaje (d : TriajeCreate) (now : Nat)
  | opUpdateTriaje (id : Nat) (f : Triaje → Triaje)
  | opDeleteTriaje (id : Nat)
  | opCreateSolicitud (d : SolicitudCreate) (now : Nat)
  | opUpdateSolicitud (id : Nat) (f : SolicitudAtencion → SolicitudAtencion)
  | opDeleteSolicitud (id : Nat)
  | opCambiarEstadoSolicitud (id : Nat) (nuevo : String)
  | opUpdateServicioSolicitado (id : Nat) (f : ServicioSolicitado → ServicioSolicitado)
  | opCreateServicioCita (consulta_id : Nat) (d : ServicioCitaCreate) (now : Nat)
  | opCreateMascota (m : Mascota)
  | opUpdateMascota (id : Nat) (f : Mascota → Mascota)
  | opDeleteMascota (id : Nat)
  | opCreateVeterinario (v : Veterinario)
  | opUpdateVeterinario (p : Veterinario → Bool) (f : Veterinario → Veterinario)
  | opDeleteVeterinario (id : Nat)
  | opCreateRecepcionista (r : Recepcionista)
  | opUpdateRecepcionista (id : Nat) (f : Recepcionista → Recepcionista)
  | opDeleteRecepcionista (id : Nat)

/-- The storage state committed by one mutating REST call (the state
component of the handler embeddings above; party-table handlers inline). -/
def apply_op (op : Op) (db : DB) : DB :=
  match op with
  | .opCreateCita d => (create_cita db d).1
  | .opDeleteCita id => (delete_cita db id).1
  | .opCreateConsulta d now => (create_consulta db d now).1
  | .opUpdateConsulta id f => (update_consulta db id f).1
  | .opCreateDiagnostico cid d now => (create_diagnostico db cid d now).1
  | .opCreateTratamiento cid d now => (create_tratamiento db cid d now).1
  | .opFinalizarConsulta id => (finalizar_consulta db id).1
  | .opUpdateResultadoServicio cid d => (update_resultado_servicio db cid d).1
  | .opUpdateDiagnosticoCompleto id fd fp ft => (update_diagnostico_completo db id fd fp ft).1
  | .opCreateTriaje d now => (create_triaje db d now).1
  | .opUpdateTriaje id f => (update_triaje db id f).1
  | .opDeleteTriaje id => (delete_triaje db id).1
  | .opCreateSolicitud d now => (create_solicitud db d now).1
  | .opUpdateSolicitud id f => (update_solicitud db id f).1
  | .opDeleteSolicitud id => (delete_solicitud db id).1
  | .opCambiarEstadoSolicitud id nuevo => (cambiar_estado_solicitud db id nuevo).1
  | .opUpdateServicioSolicitado id f => (update_servicio_solicitado db id f).1
  | .opCreateServicioCita cid d now => (create_servicio_cita db cid d now).1
  | .opCreateMascota m => { db with mascotas := db.mascotas ++ [m] }
  | .opUpdateMascota id f =>
      { db with mascotas := db.mascotas.map (fun x =>
          if x.id_mascota == id then f x else x) }
  | .opDeleteMascota id =>
      { db with mascotas := db.mascotas.filter (fun x => x.id_mascota != id) }
  | .opCreateVeterinario v => { db with veterinarios := db.veterinarios ++ [v] }
  | .opUpdateVeterinario p f =>
      { db with veterinarios := db.veterinarios.map (fun x => if p x then f x else x) }
  | .opDeleteVeterinario id =>
      { db with veterinarios := db.veterinarios.filter (fun x => x.id_veterinario != id) }
  | .opCreateRecepcionista r => { db with recepcionistas := db.recepcionistas ++ [r] }
  | .opUpdateRecepcionista id f =>
      { db with recepcionistas := db.recepcionistas.map (fun x =>
          if x.id_recepcionista == id then f x else x) }
  | .opDeleteRecepcionista id =>
      { db with recepcionistas := db.recepcionistas.filter (fun x => x.id_recepcionista != id) }

/-- Fixture: a free, active veterinarian. -/
def vet1 : Veterinario :=
  { id_veterinario := 1, id_especialidad := 1, nombre := "Ana",
    apellido_paterno := "Ramirez", dni := "12345678", estado := "Activo",
    disposicion := "Libre" }

/-- Fixture: a pet. -/
def masc1 : Mascota :=
  { id_mascota := 1, id_cliente := 1, id_raza := 1, nombre := "Firulais", sexo := "Macho" }

/-- Fixture: a receptionist. -/
def rec1 : Recepcionista :=
  { id_recepcionista := 1, nombre := "Maria", dni := "87654321", estado := "Activo" }

/-- Fixture: a pending attention request for the pet. -/
def sol1 : SolicitudAtencion :=
  { id_solicitud := 1, id_mascota := 1, id_recepcionista := 1,
    fecha_hora_solicitud := 0, tipo_solicitud := "Consulta urgente", estado := "Pendiente" }

/-- Fixture: the triage performed for request 1. -/
def tri1 : Triaje :=
  { id_triaje := 1, id_solicitud := 1, id_veterinario := 1, fecha_hora_triaje := 0,
    peso_mascota := 12, latido_por_minuto := 110, frecuencia_respiratoria_rpm := 24,
    temperatura := 38, talla := none, tiempo_capilar := none, color_mucosas := none,
    frecuencia_pulso := 100, porce_deshidratacion := none,
    condicion_corporal := some "Ideal", clasificacion_urgencia := "Urgente" }

/-- Fixture: an active service. -/
def serv1 : Servicio :=
  { id_servicio := 1, id_tipo_servicio := 1, nombre_servicio := "Radiografia",
    precio := 50, activo := true }

/-- Fixture: a state ready for consultation creation — one veterinarian,
pet, receptionist, pending request, its triage, one active service and no
consultation yet. -/
def db0 : DB :=
  { veterinarios := [vet1], mascotas := [masc1], recepcionistas := [rec1],
    solicitudes := [sol1], triajes := [tri1], consultas := [], diagnosticos := [],
    tratamientos := [], historial := [], servicios := [serv1],
    servicios_solicitados := [], citas := [], resultados_servicio := [],
    patologias := [],
    next_id_solicitud := 2, next_id_triaje := 2, next_id_consulta := 1,
    next_id_diagnostico := 1, next_id_tratamiento := 1, next_id_historial := 1,
    next_id_servicio_solicitado := 1, next_id_cita := 1 }

/-- Fixture: a consultation-creation body for triage 1 / veterinarian 1. -/
def dCons : ConsultaCreate :=
  { id_triaje := 1, id_veterinario := 1, tipo_consulta := "Consulta general",
    motivo_consulta := some "Dolor", sintomas_observados := none,
    diagnostico_preliminar := none, observaciones := none,
    condicion_general := "Regular", es_seguimiento := false, fecha_consulta := some 5 }

/-- Fixture: the consultation row the fixture body inserts into `db0`. -/
def cons1 : Consulta :=
  { id_consulta := 1, id_triaje := 1, id_veterinario := 1,
    tipo_consulta := "Consulta general", fecha_consulta := some 5,
    motivo_consulta := some "Dolor", sintomas_observados := none,
    diagnostico_preliminar := none, observaciones := none,
    condicion_general := "Regular", es_seguimiento := false }

/-- Fixture: `db0` after consultation 1 already exists for triage 1. -/
def dbDup : DB := { db0 with consultas := [cons1], next_id_consulta := 2 }

/-- Fixture: a state whose triage 1 references request 1, which does NOT
exist (the three-hop chain is broken). -/
def dbOrphan : DB := { db0 with solicitudes := [] }

/-- Fixture: a triage-creation body for request 1 with in-range vitals. -/
def dTri : TriajeCreate :=
  { id_solicitud := 1, id_veterinario := 1, peso_mascota := 12,
    latido_por_minuto := 110, frecuencia_respiratoria_rpm := 24, temperatura := 38,
    talla := none, tiempo_capilar := none, color_mucosas := none,
    frecuencia_pulso := 100, porce_deshidratacion := none,
    condicion_corporal := some "Ideal", clasificacion_urgencia := "Urgente" }

/-- Fixture: vitals at the lower temperature boundary 35.0. -/
def dTri35 : TriajeCreate := { dTri with temperatura := 35 }

/-- Fixture: vitals at the upper temperature boundary 42.0. -/
def dTri42 : TriajeCreate := { dTri with temperatura := 42 }

/-- Fixture: vitals at the lower heart-rate boundary 40. -/
def dTri40 : TriajeCreate := { dTri with latido_por_minuto := 40 }

/-- Fixture: vitals at the upper heart-rate boundary 300. -/
def dTri300 : TriajeCreate := { dTri with latido_por_minuto := 300 }

/-- Fixture: vitals with an out-of-range temperature 34.0. -/
def dTriLow : TriajeCreate := { dTri with temperatura := 34 }

/-- Fixture: a request-creation body carrying the explicit state
"Cancelada" — accepted by every SolicitudCreate validator. -/
def dSolCancel : SolicitudCreate :=
  { id_mascota := 1, id_recepcionista := 1, tipo_solicitud := "Consulta urgente",
    estado := some "Cancelada" }

/-- Fixture: a request-creation body leaving `estado` at its pydantic
default "Pendiente". -/
def dSolDefault : SolicitudCreate :=
  { id_mascota := 1, id_recepcionista := 1, tipo_solicitud := "Consulta normal",
    estado := some "Pendiente" }

/-- Fixture: a service-with-appointment body for service 1. -/
def dServCita : ServicioCitaCreate :=
  { id_veterinario := 1, id_servicio := 1, prioridad := "Normal",
    comentario_opcional := none, fecha_hora_programada := 9,
    requiere_ayuno := true, observaciones := none }

theorem find?_map_pres {α : Type} {g : α → α} {p : α → Bool} (l : List α)
    (h : ∀ x, p (g x) = p x) : (l.map g).find? p = (l.find? p).map g := by
  induction l with
  | nil => rfl
  | cons a t ih =>
    simp only [List.map_cons, List.find?_cons, h a]
    cases hp : p a <;> simp [ih]

theorem map_self_idem {α : Type} {g : α → α} (l : List α) (h : ∀ x, g (g x) = g x) :
    (l.map g).map g = l.map g := by
  induction l with
  | nil => rfl
  | cons a t ih => simp only [List.map_cons, h a, ih]

/-- C7: Creating a Triage (POST /triaje) leaves the attention-request
table — in particular the parent request and its status — entirely
unchanged: no branch of the handler writes `Solicitud_atencion`. -/
theorem create_triaje_solicitudes_frame (db : DB) (d : TriajeCreate) (now : Nat) :
    (create_triaje db d now).1.solicitudes = db.solicitudes := by
  unfold create_triaje
  split
  · rfl
  · split
    · rfl
    · cases hs : get_solicitud db d.id_solicitud with
      | none => simp [hs]
      | some s =>
        cases hv : get_veterinario db d.id_veterinario with
        | none => simp [hs, hv]
        | some v => simp [hs, hv]

/-- C10: For the concrete state `dbOrphan` — triage 1 exists but its
parent request does not resolve — consultation creation succeeds (201
with the new row), the consultation row is inserted and the veterinarian
is flipped to "Ocupado", yet no request status changes and no clinical
history event is appended, with no error reported. -/
theorem create_consulta_partial_effects :
    (create_consulta dbOrphan dCons 7).2 = Except.ok cons1 ∧
    (create_consulta dbOrphan dCons 7).1.consultas = dbOrphan.consultas ++ [cons1] ∧
    (create_consulta dbOrphan dCons 7).1.veterinarios =
      [{ vet1 with disposicion := "Ocupado" }] ∧
    (create_consulta dbOrphan dCons 7).1.solicitudes = dbOrphan.solicitudes ∧
    (create_consulta dbOrphan dCons 7).1.historial = dbOrphan.historial := by
  refine ⟨?_, ?_, ?_, ?_, ?_⟩ <;> rfl

/-- C8: The TriajeCreate validators reject (validation error) any body
whose temperature is strictly below 35.0 or strictly above 42.0 or whose
heart rate is strictly below 40 or strictly above 300, whatever the other
fields are; and they accept the boundary values 35.0, 42.0, 40 and 300
with all other fields valid. -/
theorem triaje_vitals_validation :
    (∀ d : TriajeCreate,
      (d.temperatura < 35 ∨ 42 < d.temperatura ∨
       d.latido_por_minuto < 40 ∨ 300 < d.latido_por_minuto) →
      d.valid = false) ∧
    dTri35.valid = true ∧ dTri42.valid = true ∧
    dTri40.valid = true ∧ dTri300.valid = true := by
  refine ⟨?_, by decide, by decide, by decide, by decide⟩
  intro d h
  rw [Bool.eq_false_iff]
  intro hval
  simp only [TriajeCreate.valid, Bool.and_eq_true, decide_eq_true_eq] at hval
  obtain ⟨⟨⟨⟨⟨⟨⟨⟨-, hlat⟩, -⟩, htemp⟩, -⟩, -⟩, -⟩, -⟩, -⟩ := hval
  rcases h with h | h | h | h
  · exact absurd htemp.1 (by exact not_le.mpr h)
  · exact absurd htemp.2 (by exact not_le.mpr h)
  · exact absurd hlat.1 (by exact not_le.mpr h)
  · exact absurd hlat.2 (by exact not_le.mpr h)

/-- C8 witness: the rejection half applied at the concrete out-of-range
body `dTriLow` (temperature 34.0), together with acceptance at 35.0. -/
theorem triaje_vitals_validation_witness :
    dTriLow.valid = false ∧ dTri35.valid = true :=
  ⟨triaje_vitals_validation.1 dTriLow (Or.inl (by decide)),
   triaje_vitals_validation.2.1⟩

/-- C3: One Triage per AttentionRequest.  When a triage already exists for
request `d.id_solicitud` (as after any successful create), a create
attempt that passes schema validation fails with the duplicate-triage
Conflict (400) and returns the state unchanged: no Triaje row is
inserted. -/
theorem create_triaje_at_most_once (db : DB) (d : TriajeCreate) (now : Nat)
    (hval : d.valid = true)
    (hdup : exists_for_solicitud db d.id_solicitud = true) :
    create_triaje db d now =
      (db, Except.error (ApiError.badRequest "Ya existe un triaje para esta solicitud")) := by
  unfold create_triaje
  simp [hval, hdup]

/-- C3 witness: in `db0` (triage 1 already performed for request 1) the
valid body `dTri` is rejected with the duplicate-triage Conflict. -/
theorem create_triaje_at_most_once_witness :
    create_triaje db0 dTri 4 =
      (db0, Except.error (ApiError.badRequest "Ya existe un triaje para esta solicitud")) :=
  create_triaje_at_most_once db0 dTri 4 (by decide) (by decide)

/-- C2: One Consultation per Triage.  When a consultation already exists
for triage `d.id_triaje`, every create attempt leaves the state (hence
the consultation table) unchanged and fails; when the triage and the
veterinarian references resolve, the failure is precisely the
duplicate-consultation Conflict (400). -/
theorem create_consulta_at_most_once (db : DB) (d : ConsultaCreate) (now : Nat)
    (c0 : Consulta) (hdup : get_by_triaje db d.id_triaje = some c0) :
    (create_consulta db d now).1 = db ∧
    (∃ e, (create_consulta db d now).2 = Except.error e) ∧
    (∀ t v, get_triaje db d.id_triaje = some t →
      get_veterinario db d.id_veterinario = some v →
      (create_consulta db d now).2 =
        Except.error (ApiError.badRequest "Ya existe una consulta para este triaje")) := by
  cases ht : get_triaje db d.id_triaje with
  | none =>
    refine ⟨by simp [create_consulta, ht],
      ⟨ApiError.badRequest "Triaje no encontrado", by simp [create_consulta, ht]⟩, ?_⟩
    intro t v h1 _
    exact absurd h1 (by simp)
  | some t0 =>
    cases hv : get_veterinario db d.id_veterinario with
    | none =>
      refine ⟨by simp [create_consulta, ht, hv],
        ⟨ApiError.badRequest "Veterinario no encontrado", by simp [create_consulta, ht, hv]⟩, ?_⟩
      intro t v _ h2
      exact absurd h2 (by simp)
    | some v0 =>
      exact ⟨by simp [create_consulta, ht, hv, hdup],
        ⟨ApiError.badRequest "Ya existe una consulta para este triaje",
          by simp [create_consulta, ht, hv, hdup]⟩,
        fun _ _ _ _ => by simp [create_consulta, ht, hv, hdup]⟩

/-- C2 witness: in `dbDup` (consultation 1 already exists for triage 1)
the body `dCons` is rejected with the duplicate-consultation Conflict and
the state is unchanged. -/
theorem create_consulta_at_most_once_witness :
    (create_consulta dbDup dCons 9).1 = dbDup ∧
    (create_consulta dbDup dCons 9).2 =
      Except.error (ApiError.badRequest "Ya existe una consulta para este triaje") := by
  have h := create_consulta_at_most_once dbDup dCons 9 cons1 (by rfl)
  exact ⟨h.1, h.2.2 tri1 vet1 (by rfl) (by rfl)⟩

/-- C1: The pivot effects of consultation creation.  When POST /consultas
succeeds for a body referencing triage `t` (performed by veterinarian
`d.id_veterinario`) and `t`'s parent request `r` resolves, then in the
committed state: the new consultation references `t`; the veterinarian's
`disposicion` is "Ocupado"; `r`'s `estado` is "En atencion"; and exactly
one clinical-history event was appended, for the pet referenced
transitively by `r`. -/
theorem create_consulta_pivot_effects (db : DB) (d : ConsultaCreate) (now : Nat)
    (db' : DB) (c : Consulta) (t : Triaje) (r : SolicitudAtencion)
    (hrun : create_consulta db d now = (db', Except.ok c))
    (ht : get_triaje db d.id_triaje = some t)
    (hr : get_solicitud db t.id_solicitud = some r) :
    c.id_triaje = t.id_triaje ∧
    (∃ v', get_veterinario db' d.id_veterinario = some v' ∧ v'.disposicion = "Ocupado") ∧
    (∃ r', get_solicitud db' t.id_solicitud = some r' ∧ r'.estado = "En atencion") ∧
    (∃ ev, db'.historial = db.historial ++ [ev] ∧ ev.id_mascota = r.id_mascota) := by
  have ht2 : List.find? (fun x => x.id_triaje == d.id_triaje) db.triajes = some t := by
    simpa [get_triaje] using ht
  have htid : t.id_triaje = d.id_triaje := by
    simpa using List.find?_some ht2
  have hr2 : List.find? (fun s => s.id_solicitud == t.id_solicitud) db.solicitudes = some r := by
    simpa [get_solicitud] using hr
  have hpr : (r.id_solicitud == t.id_solicitud) = true := by
    simpa using List.find?_some hr2
  cases hv : get_veterinario db d.id_veterinario with
  | none => simp [create_consulta, ht, hv] at hrun
  | some v =>
    have hv2 : List.find? (fun x => x.id_veterinario == d.id_veterinario) db.veterinarios = some v := by
      simpa [get_veterinario] using hv
    have hpv : (v.id_veterinario == d.id_veterinario) = true := by
      simpa using List.find?_some hv2
    cases hc : get_by_triaje db d.id_triaje with
    | some c0 => simp [create_consulta, ht, hv, hc] at hrun
    | none =>
      have hpv2 : v.id_veterinario = d.id_veterinario := by simpa using hpv
      have hpr2 : r.id_solicitud = t.id_solicitud := by simpa using hpr
      simp only [create_consulta, ht, hv, hc, get_solicitud, cambiar_disposicion, hr2] at hrun
      obtain ⟨hdb, hcc⟩ := Prod.mk.injEq .. |>.mp hrun
      rw [Except.ok.injEq] at hcc
      subst hdb
      subst hcc
      refine ⟨?_, ?_, ?_, ?_⟩
      · simpa using htid.symm
      · refine ⟨{ v with disposicion := "Ocupado" }, ?_, rfl⟩
        simp only [get_veterinario, add_evento_consulta, cambiar_estado]
        rw [find?_map_pres db.veterinarios (by
          intro x
          cases hx : x.id_veterinario == d.id_veterinario <;> simp [hx])]
        rw [hv2]
        simp [hpv2]
      · refine ⟨{ r with estado := "En atencion" }, ?_, rfl⟩
        simp only [get_solicitud, add_evento_consulta, cambiar_estado]
        rw [find?_map_pres db.solicitudes (by
          intro x
          cases hx : x.id_solicitud == t.id_solicitud <;> simp [hx])]
        rw [hr2]
        simp [hpr2]
      · refine ⟨⟨db.next_id_historial, r.id_mascota, some db.next_id_consulta, none, none,
          some d.id_veterinario, now, "Consulta médica", none,
          "Consulta: " ++ d.tipo_consulta ++ ". Motivo: " ++ d.motivo_consulta.getD "No especificado",
          if t.peso_mascota == 0 then none else some t.peso_mascota, none⟩, ?_, rfl⟩
        simp [add_evento_consulta, cambiar_estado]

/-- C1 witness: the pivot effects at the concrete state `db0` (triage 1,
request 1, veterinarian 1, body `dCons`, clock 5). -/
theorem create_consulta_pivot_effects_witness :
    cons1.id_triaje = tri1.id_triaje ∧
    (∃ v', get_veterinario (create_consulta db0 dCons 5).1 dCons.id_veterinario = some v' ∧
      v'.disposicion = "Ocupado") ∧
    (∃ r', get_solicitud (create_consulta db0 dCons 5).1 tri1.id_solicitud = some r' ∧
      r'.estado = "En atencion") ∧
    (∃ ev, (create_consulta db0 dCons 5).1.historial = db0.historial ++ [ev] ∧
      ev.id_mascota = sol1.id_mascota) :=
  create_consulta_pivot_effects db0 dCons 5 (create_consulta db0 dCons 5).1 cons1 tri1 sol1
    (by rfl) (by rfl) (by rfl)

/-- C4: Finalizing a consultation is idempotent.  When consultation `co`
exists and its veterinarian, triage and parent request all resolve, the
first finalize succeeds leaving the veterinarian "Libre" and the request
"Completada", and a second finalize on the resulting state returns that
state unchanged (re-applying the same two assignments). -/
theorem finalizar_consulta_idempotent (db : DB) (cid : Nat) (co : Consulta)
    (v : Veterinario) (t : Triaje) (r : SolicitudAtencion)
    (hc : get_consulta db cid = some co)
    (hv : get_veterinario db co.id_veterinario = some v)
    (ht : get_triaje db co.id_triaje = some t)
    (hr : get_solicitud db t.id_solicitud = some r) :
    ∃ db1, finalizar_consulta db cid = (db1, Except.ok ()) ∧
      (∃ v1, get_veterinario db1 co.id_veterinario = some v1 ∧ v1.disposicion = "Libre") ∧
      (∃ r1, get_solicitud db1 t.id_solicitud = some r1 ∧ r1.estado = "Completada") ∧
      finalizar_consulta db1 cid = (db1, Except.ok ()) := by
  have hv2 : List.find? (fun x => x.id_veterinario == co.id_veterinario) db.veterinarios = some v := by
    simpa [get_veterinario] using hv
  have hpv2 : v.id_veterinario = co.id_veterinario := by
    simpa using List.find?_some hv2
  have hr2 : List.find? (fun s => s.id_solicitud == t.id_solicitud) db.solicitudes = some r := by
    simpa [get_solicitud] using hr
  have hpr2 : r.id_solicitud = t.id_solicitud := by
    simpa using List.find?_some hr2
  refine ⟨cambiar_estado (cambiar_disposicion db co.id_veterinario "Libre")
    t.id_solicitud "Completada", ?_, ?_, ?_, ?_⟩
  · simp only [finalizar_consulta, hc]
    rw [show get_triaje (cambiar_disposicion db co.id_veterinario "Libre") co.id_triaje
      = some t from ht]
  · refine ⟨{ v with disposicion := "Libre" }, ?_, rfl⟩
    simp only [get_veterinario, cambiar_estado, cambiar_disposicion]
    rw [find?_map_pres db.veterinarios (by
      intro x
      cases hx : x.id_veterinario == co.id_veterinario <;> simp [hx])]
    rw [hv2]
    simp [hpv2]
  · refine ⟨{ r with estado := "Completada" }, ?_, rfl⟩
    simp only [get_solicitud, cambiar_estado, cambiar_disposicion]
    rw [find?_map_pres db.solicitudes (by
      intro x
      cases hx : x.id_solicitud == t.id_solicitud <;> simp [hx])]
    rw [hr2]
    simp [hpr2]
  · have e1 : get_consulta (cambiar_estado (cambiar_disposicion db co.id_veterinario "Libre")
      t.id_solicitud "Completada") cid = some co := hc
    have e2 : get_triaje (cambiar_disposicion (cambiar_estado
      (cambiar_disposicion db co.id_veterinario "Libre") t.id_solicitud "Completada")
      co.id_veterinario "Libre") co.id_triaje = some t := ht
    simp only [finalizar_consulta, e1, e2]
    simp only [cambiar_disposicion, cambiar_estado, Prod.mk.injEq, and_true]
    rw [map_self_idem db.veterinarios (by
      intro x
      cases hx : x.id_veterinario == co.id_veterinario <;> simp [hx])]
    rw [map_self_idem db.solicitudes (by
      intro x
      cases hx : x.id_solicitud == t.id_solicitud <;> simp [hx])]

/-- C4 witness: finalize-twice on the concrete state `dbDup`
(consultation 1 of triage 1, request 1, veterinarian 1). -/
theorem finalizar_consulta_idempotent_witness :
    ∃ db1, finalizar_consulta dbDup 1 = (db1, Except.ok ()) ∧
      (∃ v1, get_veterinario db1 cons1.id_veterinario = some v1 ∧ v1.disposicion = "Libre") ∧
      (∃ r1, get_solicitud db1 tri1.id_solicitud = some r1 ∧ r1.estado = "Completada") ∧
      finalizar_consulta db1 1 = (db1, Except.ok ()) :=
  finalizar_consulta_idempotent dbDup 1 cons1 vet1 tri1 sol1
    (by rfl) (by rfl) (by rfl) (by rfl)

/-- C5: Requested-service-with-appointment creation is all-or-nothing.
On any failure the committed state is the input state — neither row
persists — and on success exactly one Servicio_Solicitado row (state
"Solicitado") and exactly one Cita row (state "Programada") referencing
it are appended, in the same commit. -/
theorem create_servicio_cita_atomic (db : DB) (cid : Nat) (d : ServicioCitaCreate)
    (now : Nat) :
    (∀ e, (create_servicio_cita db cid d now).2 = Except.error e →
      (create_servicio_cita db cid d now).1 = db) ∧
    (∀ db' ids, create_servicio_cita db cid d now = (db', Except.ok ids) →
      ∃ ss ct,
        db'.servicios_solicitados = db.servicios_solicitados ++ [ss] ∧
        ss.estado_examen = "Solicitado" ∧ ss.id_servicio_solicitado = ids.1 ∧
        db'.citas = db.citas ++ [ct] ∧ ct.estado_cita = "Programada" ∧
        ct.id_servicio_solicitado = some ids.1 ∧ ct.id_cita = ids.2) := by
  cases h1 : get_consulta db cid with
  | none =>
    refine ⟨fun e _ => by simp [create_servicio_cita, h1], fun db' ids h => ?_⟩
    simp [create_servicio_cita, h1] at h
  | some c =>
    cases h2 : db.servicios.find? (fun s => s.id_servicio == d.id_servicio && s.activo) with
    | none =>
      refine ⟨fun e _ => by simp [create_servicio_cita, h1, h2], fun db' ids h => ?_⟩
      simp [create_servicio_cita, h1, h2] at h
    | some s =>
      cases h3 : resolve_mascota_of_consulta db cid with
      | none =>
        refine ⟨fun e _ => by simp [create_servicio_cita, h1, h2, h3], fun db' ids h => ?_⟩
        simp [create_servicio_cita, h1, h2, h3] at h
      | some mid =>
        refine ⟨fun e he => ?_, fun db' ids h => ?_⟩
        · simp [create_servicio_cita, h1, h2, h3] at he
        · simp only [create_servicio_cita, h1, h2, h3] at h
          obtain ⟨hdb, hids⟩ := Prod.mk.injEq .. |>.mp h
          rw [Except.ok.injEq] at hids
          subst hdb
          subst hids
          exact ⟨_, _, rfl, rfl, rfl, rfl, rfl, rfl, rfl⟩

/-- C5 witness: the failure half at the broken state `dbOrphan` (pet not
resolvable: state unchanged) and the success half at `dbDup`
(consultation 1 resolves to pet 1: both rows appended). -/
theorem create_servicio_cita_atomic_witness :
    (create_servicio_cita dbOrphan 1 dServCita 9).1 = dbOrphan ∧
    ∃ ss ct,
      (create_servicio_cita dbDup 1 dServCita 9).1.servicios_solicitados =
        dbDup.servicios_solicitados ++ [ss] ∧
      ss.estado_examen = "Solicitado" ∧
      ss.id_servicio_solicitado = (create_servicio_cita dbDup 1 dServCita 9).2.toOption.get!.1 ∧
      (create_servicio_cita dbDup 1 dServCita 9).1.citas = dbDup.citas ++ [ct] ∧
      ct.estado_cita = "Programada" ∧
      ct.id_servicio_solicitado = some (create_servicio_cita dbDup 1 dServCita 9).2.toOption.get!.1 ∧
      ct.id_cita = (create_servicio_cita dbDup 1 dServCita 9).2.toOption.get!.2 := by
  constructor
  · exact (create_servicio_cita_atomic dbOrphan 1 dServCita 9).1
      (ApiError.notFound "Consulta no encontrada") (by rfl)
  · exact (create_servicio_cita_atomic dbDup 1 dServCita 9).2
      (create_servicio_cita dbDup 1 dServCita 9).1 (1, 1) (by rfl)

/-- C6 counterexample: POST /solicitudes with the accepted body
`dSolCancel` (explicit estado "Cancelada") succeeds and stores
"Cancelada", not "Pendiente": creation does not force status Pending for
every accepted input. -/
theorem create_solicitud_estado_cancelada :
    (create_solicitud db0 dSolCancel 0).2 =
      Except.ok ⟨2, 1, 1, 0, "Consulta urgente", "Cancelada"⟩ ∧
    ((⟨2, 1, 1, 0, "Consulta urgente", "Cancelada"⟩ : SolicitudAtencion).estado
      = "Pendiente" → False) := by
  exact ⟨by rfl, by decide⟩

/-- C6 amended: a request created through POST /solicitudes has status
"Pendiente" whenever the body's `estado` is the schema default
"Pendiente" (the field was omitted) or null (the column default applies);
exactly one row is appended.  An explicit different valid `estado` in the
body is stored as sent. -/
theorem create_solicitud_default_estado (db : DB) (d : SolicitudCreate) (now : Nat)
    (db' : DB) (s : SolicitudAtencion)
    (hrun : create_solicitud db d now = (db', Except.ok s))
    (hdef : d.estado = some "Pendiente" ∨ d.estado = none) :
    db'.solicitudes = db.solicitudes ++ [s] ∧ s.estado = "Pendiente" := by
  by_cases hval : d.valid = true
  case neg => simp [create_solicitud, hval] at hrun
  case pos =>
    cases hm : get_mascota db d.id_mascota with
    | none => simp [create_solicitud, hval, hm] at hrun
    | some m =>
      cases hrr : get_recepcionista db d.id_recepcionista with
      | none => simp [create_solicitud, hval, hm, hrr] at hrun
      | some rr =>
        simp only [create_solicitud, hval, hm, hrr, not_true, if_false, ite_false] at hrun
        obtain ⟨hdb, hs⟩ := Prod.mk.injEq .. |>.mp hrun
        rw [Except.ok.injEq] at hs
        subst hdb
        subst hs
        refine ⟨rfl, ?_⟩
        rcases hdef with hdef | hdef <;> simp [hdef]

/-- C6 witness (amended claim): with the default-state body `dSolDefault`
the stored request has estado "Pendiente". -/
theorem create_solicitud_default_estado_witness :
    (create_solicitud db0 dSolDefault 0).1.solicitudes = db0.solicitudes ++
      [⟨2, 1, 1, 0, "Consulta normal", "Pendiente"⟩] ∧
    (⟨2, 1, 1, 0, "Consulta normal", "Pendiente"⟩ : SolicitudAtencion).estado = "Pendiente" :=
  create_solicitud_default_estado db0 dSolDefault 0 (create_solicitud db0 dSolDefault 0).1
    ⟨2, 1, 1, 0, "Consulta normal", "Pendiente"⟩ (by rfl) (Or.inl (by rfl))

/-- C9: The clinical history is append-only at the API surface.  Every
mutating REST operation leaves the existing `Historial_clinico` rows as a
prefix of the resulting table: an operation may append new events (the
consultation / diagnosis / treatment create paths) but none updates or
deletes an existing event. -/
theorem historial_append_only (op : Op) (db : DB) :
    ∃ nuevos, (apply_op op db).historial = db.historial ++ nuevos := by
  cases op with
  | opCreateCita d =>
    simp only [apply_op]
    unfold create_cita
    repeat' split
    all_goals exact ⟨[], by simp⟩
  | opDeleteCita id =>
    simp only [apply_op]
    unfold delete_cita
    repeat' split
    all_goals exact ⟨[], by simp⟩
  | opCreateConsulta d now =>
    simp only [apply_op]
    unfold create_consulta
    repeat' (first | split | dsimp only)
    all_goals first
      | exact ⟨_, rfl⟩
      | exact ⟨[], by simp [cambiar_disposicion, cambiar_estado, add_evento_consulta]⟩
  | opUpdateConsulta id f =>
    simp only [apply_op]
    unfold update_consulta
    repeat' split
    all_goals exact ⟨[], by simp⟩
  | opCreateDiagnostico cid d now =>
    simp only [apply_op]
    unfold create_diagnostico
    repeat' (first | split | dsimp only)
    all_goals first
      | exact ⟨_, rfl⟩
      | exact ⟨[], by simp [add_evento_diagnostico]⟩
  | opCreateTratamiento cid d now =>
    simp only [apply_op]
    unfold create_tratamiento
    repeat' (first | split | dsimp only)
    all_goals first
      | exact ⟨_, rfl⟩
      | exact ⟨[], by simp [add_evento_tratamiento]⟩
  | opFinalizarConsulta id =>
    simp only [apply_op]
    unfold finalizar_consulta
    repeat' (first | split | dsimp only)
    all_goals exact ⟨[], by simp [cambiar_disposicion, cambiar_estado]⟩
  | opUpdateResultadoServicio cid d =>
    simp only [apply_op]
    unfold update_resultado_servicio
    repeat' split
    all_goals exact ⟨[], by simp⟩
  | opUpdateDiagnosticoCompleto id fd fp ft =>
    simp only [apply_op]
    unfold update_diagnostico_completo
    repeat' (first | split | dsimp only)
    all_goals exact ⟨[], by simp⟩
  | opCreateTriaje d now =>
    simp only [apply_op]
    unfold create_triaje
    repeat' split
    all_goals exact ⟨[], by simp⟩
  | opUpdateTriaje id f =>
    simp only [apply_op]
    unfold update_triaje
    repeat' split
    all_goals exact ⟨[], by simp⟩
  | opDeleteTriaje id =>
    simp only [apply_op]
    unfold delete_triaje
    repeat' split
    all_goals exact ⟨[], by simp⟩
  | opCreateSolicitud d now =>
    simp only [apply_op]
    unfold create_solicitud
    repeat' split
    all_goals exact ⟨[], by simp⟩
  | opUpdateSolicitud id f =>
    simp only [apply_op]
    unfold update_solicitud
    repeat' split
    all_goals exact ⟨[], by simp⟩
  | opDeleteSolicitud id =>
    simp only [apply_op]
    unfold delete_solicitud
    repeat' split
    all_goals exact ⟨[], by simp⟩
  | opCambiarEstadoSolicitud id nuevo =>
    simp only [apply_op]
    unfold cambiar_estado_solicitud
    repeat' split
    all_goals exact ⟨[], by simp [cambiar_estado]⟩
  | opUpdateServicioSolicitado id f =>
    simp only [apply_op]
    unfold update_servicio_solicitado
    repeat' split
    all_goals exact ⟨[], by simp⟩
  | opCreateServicioCita cid d now =>
    simp only [apply_op]
    unfold create_servicio_cita
    repeat' split
    all_goals exact ⟨[], by simp⟩
  | opCreateMascota m => exact ⟨[], by simp [apply_op]⟩
  | opUpdateMascota id f => exact ⟨[], by simp [apply_op]⟩
  | opDeleteMascota id => exact ⟨[], by simp [apply_op]⟩
  | opCreateVeterinario v => exact ⟨[], by simp [apply_op]⟩
  | opUpdateVeterinario p f => exact ⟨[], by simp [apply_op]⟩
  | opDeleteVeterinario id => exact ⟨[], by simp [apply_op]⟩
  | opCreateRecepcionista r => exact ⟨[], by simp [apply_op]⟩
  | opUpdateRecepcionista id f => exact ⟨[], by simp [apply_op]⟩
  | opDeleteRecepcionista id => exact ⟨[], by simp [apply_op]⟩

end Veterinaria
